import Mathlib

/-!
# Verification of the blendgen rendering/worker pipeline

Shallow embedding of the Python sources `simian/worker.py`, `simian/render.py`
and `simian/background.py`.  Pure computations become Lean functions; effectful
code is modelled by an explicit `Action` trace together with an optional
`PyError` describing an uncaught Python exception; the file system is an
explicit record of files and directories.  External hosts (the Blender `bpy`
API, HTTP downloads, the task queue) are modelled as opaque actions or as
oracle parameters (e.g. the downloader is a function from URL to content).
-/

namespace Blendgen

/-- JSON values, as produced by `json.load` / `json.loads`. -/
inductive Json where
  | null
  | bool (b : Bool)
  | num (n : Int)
  | str (s : String)
  | arr (elems : List Json)
  | obj (fields : List (String × Json))
deriving Repr

/-- Uncaught Python exceptions that the modelled code can raise. -/
inductive PyError where
  | nameError (name : String)
  | valueError (msg : String)
  | keyError (key : String)
  | typeError
  | indexError
  | fileNotFound (path : String)
  | calledProcessError (returncode : Nat)
deriving Repr, DecidableEq

/-- Observable effects performed by the modelled code, in execution order. -/
inductive Action where
  | makeDirs (dir : String)
  | runSubprocess (cmd : String)
  | upload (dir : String)
  | deleteFile (path : String)
  | logError (msg : String)
  | logInfo (msg : String)
  | print (msg : String)
  | openMainfile (path : String)
  | initializeScene
  | createCameraRig
  | setFrameRange (frame_start frame_end : Int)
  | lockAllObjects
  | unlockObjects
  | setCameraSettings
  | setCameraAnimation (animation_length : Int)
  | setBackgroundTo (path : String)
  | createPhotosphere
  | createStage
  | frameSet (frame : Int)
  | positionCamera
  | render (filepath : String)
  | saveMainfile (filepath : String)
  | download (url : String)
  | writeFile (path : String)
deriving Repr, DecidableEq

/-- Holds (as `true`) exactly for the file-deletion effect (`os.remove`). -/
def Action.isDelete : Action → Bool
  | .deleteFile _ => true
  | _ => false

/-- Python subscript `j[k]` for a string key `k`: a `dict` yields the value or
`KeyError`; subscripting any non-`dict` with a string key is a `TypeError`. -/
def Json.getKey : Json → String → Except PyError Json
  | .obj fields, k =>
      match fields.lookup k with
      | some v => .ok v
      | none => .error (.keyError k)
  | _, _ => .error .typeError

/-- Python `str()` of a JSON value as used inside f-strings.  The claims only
exercise string values; container renderings are abbreviated and unused. -/
def Json.fstr : Json → String
  | .str s => s
  | .num n => toString n
  | .bool true => "True"
  | .bool false => "False"
  | .null => "None"
  | .arr _ => "<list>"
  | .obj _ => "<dict>"

/-- File system state: file contents by path, plus the set of directories. -/
structure FS where
  files : List (String × String)
  dirs : List String
deriving Repr

/-- Python `os.path.exists`, restricted to file paths (the paths the claims test). -/
def FS.existsFile (fs : FS) (p : String) : Bool :=
  (fs.files.lookup p).isSome

/-- Python `os.makedirs(d, exist_ok=True)`: records the directory; never touches
file contents. -/
def FS.makedirs (fs : FS) (d : String) : FS :=
  if fs.dirs.contains d then fs else { fs with dirs := d :: fs.dirs }

/-- Write `content` to `p` (`open(p, 'wb')` followed by `write`). -/
def FS.write (fs : FS) (p content : String) : FS :=
  { fs with files := (p, content) :: fs.files.filter (fun q => q.1 ≠ p) }

/-- Python `os.path.dirname`: everything before the last path separator (the empty
string when the path has no separator). -/
def dirname (p : String) : String :=
  match p.toList.reverse.dropWhile (fun c => c ≠ '/') with
  | [] => ""
  | _ :: t => String.mk t.reverse

/-- Source `background.py` lines 6-20, `get_background_path`: builds
`f"{background_path}/{background_from}/{background_id}.hdr"` from the
combination's `background` descriptor (keys read in source order: `id`,
then `from`). -/
def get_background_path (background_path : String) (combination : Json) :
    Except PyError String :=
  match combination.getKey "background" with
  | .error e => .error e
  | .ok background =>
      match background.getKey "id" with
      | .error e => .error e
      | .ok background_id =>
          match background.getKey "from" with
          | .error e => .error e
          | .ok background_from =>
              .ok (background_path ++ "/" ++ background_from.fstr ++ "/" ++
                   background_id.fstr ++ ".hdr")

/-- Source `background.py` lines 22-51, `get_background`: compute the target path,
read the `url` key, `makedirs` the parent, then download and write only when
no file exists at the path.  `download` is the oracle for `requests.get`:
it maps a URL to the downloaded content. -/
def get_background (download : String → String) (fs : FS)
    (background_path : String) (combination : Json) :
    Except PyError (FS × List Action) :=
  match get_background_path background_path combination with
  | .error e => .error e
  | .ok path =>
      match combination.getKey "background" with
      | .error e => .error e
      | .ok background =>
          match background.getKey "url" with
          | .error e => .error e
          | .ok background_url =>
              let fs1 := fs.makedirs (dirname path)
              if fs1.existsFile path then
                .ok (fs1,
                  [Action.print ("Background " ++ path ++ " already exists")])
              else
                .ok (fs1.write path (download background_url.fstr),
                  [Action.download background_url.fstr, Action.writeFile path])

/-- A node of the Blender world node tree: its type and its name. -/
structure SBNode where
  type : String
  name : String
deriving Repr, DecidableEq

/-- Source `background.py` lines 53-110, `set_background`: ensure the HDR is on disk,
scan the world tree for an Environment Texture node (raising `ValueError` when
none is found), load the image, and fetch-or-create the `Background` and
`World Output` nodes (`nodes.get` returns `None` for a missing name, and a
missing node is then created).  Returns the updated file system and tree. -/
def set_background (download : String → String) (fs : FS)
    (background_path : String) (combination : Json) (tree : List SBNode) :
    Except PyError (FS × List SBNode) :=
  match get_background download fs background_path combination with
  | .error e => .error e
  | .ok (fs1, _) =>
  match get_background_path background_path combination with
  | .error e => .error e
  | .ok _path =>
  match tree.find? (fun n => n.type == "TEX_ENVIRONMENT") with
  | none =>
      .error (.valueError "Environment Texture node not found in the world node graph")
  | some _ =>
      let tree1 : List SBNode :=
        match tree.find? (fun n => n.name == "Background") with
        | some _ => tree
        | none => tree ++ [SBNode.mk "BACKGROUND" "Background"]
      let tree2 : List SBNode :=
        match tree1.find? (fun n => n.name == "World Output") with
        | some _ => tree1
        | none => tree1 ++ [SBNode.mk "OUTPUT_WORLD" "World Output"]
      .ok (fs1, tree2)

/-! ## `simian/worker.py` -/

/-- Source `worker.py` line 42: wrap a `json.dumps` string in quotes, escaping the
inner double quotes: `'"' + s.replace('"', '\\"') + '"'`. -/
def escape_combo (s : String) : String :=
  "\"" ++ (s.replace "\"" "\\\"") ++ "\""

/-- Source `worker.py` lines 53-59: the shell command for one render subprocess. -/
def render_command (width height : Int) (combination_index : Nat)
    (output_dir hdri_path : String) (start_frame end_frame : Int)
    (combination_string : String) : String :=
  "python -m simian.render --  --width " ++ toString width ++
  " --height " ++ toString height ++
  " --combination_index " ++ toString combination_index ++
  " --output_dir " ++ output_dir ++
  " --hdri_path " ++ hdri_path ++
  " --start_frame " ++ toString start_frame ++
  " --end_frame " ++ toString end_frame ++
  " --combination " ++ combination_string

/-- Source `worker.py` lines 50-62: the render loop.  `exit` is the oracle giving the
exit status of the j-th launched subprocess; `check=True` makes a non-zero
status raise `CalledProcessError` at once.  Indexing `combination_strings[i]`
past the end of the combinations list is an `IndexError`. -/
def run_job_loop (exit : Nat → Nat) (width height : Int)
    (output_dir hdri_path : String) (start_frame end_frame : Int) :
    Nat → List Nat → List String → List Action × Option PyError
  | _, [], _ => ([], none)
  | _, _ :: _, [] => ([], some .indexError)
  | j, i :: is, c :: cs =>
      let act := Action.runSubprocess
        (render_command width height i output_dir hdri_path
          start_frame end_frame c)
      if exit j = 0 then
        let rest := run_job_loop exit width height output_dir hdri_path
          start_frame end_frame (j + 1) is cs
        (act :: rest.1, rest.2)
      else
        ([act], some (.calledProcessError (exit j)))

/-- Source `worker.py` lines 13-66, `run_job`: serialize the combinations (modelled by
their `json.dumps` strings `combinations`), append the timestamp `t` to the
output directory, create it, run one render subprocess per combination index in
list order (each checked), and finally upload the output directory.
`distributaur` is bound at module load under celery; `upload_directory` is a
single opaque action of that external library. -/
def run_job (exit : Nat → Nat) (combination_indeces : List Nat)
    (combinations : List String) (width height : Int)
    (output_dir hdri_path : String) (start_frame end_frame : Int)
    (t : String) : List Action × Option PyError :=
  let combination_strings := combinations.map escape_combo
  let dir := output_dir ++ t
  let body := run_job_loop exit width height dir hdri_path
    start_frame end_frame 0 combination_indeces combination_strings
  match body.2 with
  | some e => (Action.makeDirs dir :: body.1, some e)
  | none => (Action.makeDirs dir :: body.1 ++ [Action.upload dir], none)

/-! ## `simian/render.py` -/

/-- Source `render.py` lines 43-78, `generate_random_scene`: the module never imports
`subprocess`, so the call `subprocess.run(...)` inside the `try` body raises
`NameError`; evaluating the matching clause `except subprocess.TimeoutExpired`
raises `NameError` again, which escapes the later `except Exception` handler.
The would-be subprocess exit status (`returncode`) is therefore never
consulted.  Before the failing call the function builds and prints the
command line. -/
def generate_random_scene (returncode : Nat) (cwd : String) :
    List Action × Except PyError String :=
  let _ := returncode
  ([Action.print ("Running command: python3 -m infinigen.datagen.manage_jobs" ++
      " --output_folder outputs/random --num_scenes 1 in " ++
      cwd ++ "/infinigen")],
   .error (.nameError "subprocess"))

/-- Source `render.py` lines 44-72, the body of the `try` block of
`generate_random_scene` as written (the dead code guarded by the missing
`subprocess` import): a non-zero exit returns `""`; on success the first
generated folder under `outputs/random` yields the scene path, and no folder
at all returns `""`. -/
def generate_random_scene_try_body (returncode : Nat) (cwd : String)
    (generated_folders : List String) : String :=
  if returncode ≠ 0 then ""
  else
    match generated_folders with
    | [] => ""
    | f :: _ => cwd ++ "/infinigen/outputs/random/" ++ f ++ "/fine/scene.blend"

/-- Source `render.py` lines 81-94, `read_combination`: open and parse the JSON file
(the parsed content is the oracle `fsJson`), read the top-level
`combinations` entry, and index it. -/
def read_combination (fsJson : String → Option Json)
    (combination_file : String) (index : Nat) : Except PyError Json :=
  match fsJson combination_file with
  | none => .error (.fileNotFound combination_file)
  | some data =>
      match data.getKey "combinations" with
      | .error e => .error e
      | .ok (.arr l) =>
          match l.get? index with
          | some v => .ok v
          | none => .error .indexError
      | .ok _ => .error .typeError

/-- Source `render.py` lines 97-108, `load_user_blend_file`: a missing file logs an
error and returns `False` without opening anything; an existing file is opened
as the base scene (a load failure is caught and returns `False`; in this model
opening an existing file succeeds).  `fs` is the set of existing paths. -/
def load_user_blend_file (fs : List String) (user_blend_file : String) :
    Bool × List Action :=
  if fs.contains user_blend_file then
    (true, [Action.openMainfile user_blend_file,
            Action.logInfo ("Opened user-specified Blender file " ++
              user_blend_file ++ " as the base scene.")])
  else
    (false, [Action.logError ("Blender file " ++ user_blend_file ++
              " does not exist.")])

/-- Python truthiness of the optional `user_blend_file` argument:
`None` and `""` are falsy. -/
def pyTruthy : Option String → Bool
  | none => false
  | some s => s ≠ ""

/-- Source `render.py` lines 133-178, `render_scene` up to and including the call
`delete__folder()` on line 178.  The module defines `delete_folder` (one
underscore, line 111) but never a name `delete__folder`, so every execution
that reaches line 178 raises `NameError`.  The paths that do not reach it are
the early returns for an unloadable user blend file (lines 170-176) and the
`"infinigen"` branch, whose call to `generate_random_scene` raises
`NameError` for the missing `subprocess` import.  `fs` is the set of
existing file paths. -/
def render_scene (fs : List String) (cwd : String) (output_dir : String)
    (combination_index : Nat) (user_blend_file : Option String) :
    List Action × Option PyError :=
  let acts0 := [Action.logInfo ("Rendering scene with combination " ++
                  toString combination_index),
                Action.makeDirs output_dir, Action.initializeScene]
  match user_blend_file with
  | some ub =>
      if ub = "infinigen" then
        let g := generate_random_scene 0 cwd
        (acts0 ++ g.1, some (.nameError "subprocess"))
      else if ub ≠ "" then
        let l := load_user_blend_file fs ub
        if l.1 then
          (acts0 ++ l.2, some (.nameError "delete__folder"))
        else
          (acts0 ++ l.2 ++
            [Action.logError ("Unable to load user-specified Blender file: " ++ ub)],
           none)
      else (acts0, some (.nameError "delete__folder"))
  | none => (acts0, some (.nameError "delete__folder"))

/-- Source `render.py` lines 254-287: the final rendering branch.  In image mode the
middle frame is `(frame_start + frame_end) // 2` (Python floor division), the
chosen size is the `random.choice` oracle `size`, and one `.png` is written to
`f"{combination_index}_frame_{middle_frame}_{size[0]}x{size[1]}.png"` in the
output directory.  In video mode the animation is rendered to
`f"{combination_index}.mp4"` and the scene is saved to
`f"{combination_index}.blend"`. -/
def render_output_actions (render_images : Bool) (output_dir : String)
    (combination_index : Nat) (frame_start frame_end : Int)
    (size : Int × Int) : List Action :=
  if render_images then
    let middle_frame := (frame_start + frame_end).fdiv 2
    let render_path := output_dir ++ "/" ++ toString combination_index ++
      "_frame_" ++ toString middle_frame ++ "_" ++ toString size.1 ++ "x" ++
      toString size.2 ++ ".png"
    [Action.frameSet middle_frame, Action.positionCamera,
     Action.render render_path]
  else
    let render_path := output_dir ++ "/" ++ toString combination_index ++ ".mp4"
    [Action.positionCamera, Action.render render_path,
     Action.saveMainfile (output_dir ++ "/" ++ toString combination_index ++
       ".blend")]

/-- Source `render.py` lines 180-287: the body of `render_scene` after the
`delete__folder()` call on line 178 (unreachable in the source as written,
because that call raises `NameError`; it is embedded separately to settle what
the code after the failing line does).  The camera rig is created, the frame
range is set to `animation_length - (end_frame - start_frame)` ..
`animation_length`, the combination is taken from the `--combination`
argument (already parsed, `combination_arg`) or read from the file, and the
object loop runs.  `import simian.vendor.objaverse` never binds the bare name
`objaverse`, so a non-empty `objects` list raises `NameError` at line 199;
with an empty list the loop is skipped.  When `user_blend_file` is falsy the
background/photosphere/stage block runs (using the module-global
`args.hdri_path`, here the parameter `hdri_path`). -/
def render_scene_continuation_rest (fsJson : String → Option Json)
    (combination_file : String) (combination_arg : Option Json)
    (combination_index : Nat)
    (start_frame end_frame animation_length : Int)
    (render_images : Bool) (user_blend_file : Option String)
    (output_dir : String) (size : Int × Int)
    (download : String → String) (fs : FS) (hdri_path : String)
    (tree : List SBNode) : List Action × Option PyError :=
  let frame_start := animation_length - (end_frame - start_frame)
  let frame_end := animation_length
  let combo : Except PyError Json :=
    match combination_arg with
    | some j => .ok j
    | none => read_combination fsJson combination_file combination_index
  match combo with
  | .error e => ([], some e)
  | .ok combination =>
      match combination.getKey "objects" with
      | .error e => ([], some e)
      | .ok (.arr (_ :: _)) => ([], some (.nameError "objaverse"))
      | .ok (.arr []) =>
          let acts1 := [Action.unlockObjects,
            Action.setCameraSettings,
            Action.setCameraAnimation animation_length]
          let out := render_output_actions render_images output_dir
            combination_index frame_start frame_end size
          if pyTruthy user_blend_file then
            (acts1 ++ out, none)
          else
            match set_background download fs hdri_path combination tree with
            | .error e => (acts1, some e)
            | .ok _ =>
                (acts1 ++ [Action.createPhotosphere, Action.createStage] ++ out,
                 none)
      | .ok _ => ([], some .typeError)

/-- The trace and error of `render.py` lines 180-287: the camera rig is
created, the frame range is set, the objects are locked, and then
`render_scene_continuation_rest` (the part from the combination resolution
onward) runs. -/
def render_scene_continuation (fsJson : String → Option Json)
    (combination_file : String) (combination_arg : Option Json)
    (combination_index : Nat)
    (start_frame end_frame animation_length : Int)
    (render_images : Bool) (user_blend_file : Option String)
    (output_dir : String) (size : Int × Int)
    (download : String → String) (fs : FS) (hdri_path : String)
    (tree : List SBNode) : List Action × Option PyError :=
  let r := render_scene_continuation_rest fsJson combination_file
    combination_arg combination_index start_frame end_frame animation_length
    render_images user_blend_file output_dir size download fs hdri_path tree
  ([Action.createCameraRig,
    Action.setFrameRange (animation_length - (end_frame - start_frame))
      animation_length,
    Action.lockAllObjects] ++ r.1, r.2)

/-! ## The `render.py` CLI entry point (lines 290-368) -/

/-- The flags declared by the `argparse` parser of `render.py`, with their
default values. -/
structure RenderArgs where
  output_dir : String := "renders"
  combination_file : String := "combinations.json"
  hdri_path : String := "backgrounds"
  combination_index : Int := 0
  start_frame : Int := 1
  end_frame : Int := 65
  animation_length : Int := 120
  width : Int := 1920
  height : Int := 1080
  combination : Option String := none
  images : Bool := false
  scene : Option String := none
deriving Repr, DecidableEq

/-- Source `render.py` lines 363-366: keep only the arguments after the first `"--"`
token of `sys.argv`; with no `"--"` present the parsed list is empty. -/
def render_cli_argv : List String → List String
  | [] => []
  | a :: rest => if a = "--" then rest else render_cli_argv rest

/-- The `argparse` parsing loop over the flags declared in `render.py` lines
291-361: each value flag consumes the following token (integer flags parse it
with `int`), `--images` is `store_true`, and `--scene` has `nargs` `?` with
const `"infinigen"` (a missing or flag-like follower yields `"infinigen"`).
An unrecognized token is an argparse error. -/
def parse_render_args : RenderArgs → List String → Except PyError RenderArgs
  | a, [] => .ok a
  | a, "--output_dir" :: v :: rest =>
      parse_render_args { a with output_dir := v } rest
  | a, "--combination_file" :: v :: rest =>
      parse_render_args { a with combination_file := v } rest
  | a, "--hdri_path" :: v :: rest =>
      parse_render_args { a with hdri_path := v } rest
  | a, "--combination_index" :: v :: rest =>
      match v.toInt? with
      | some n => parse_render_args { a with combination_index := n } rest
      | none => .error (.valueError v)
  | a, "--start_frame" :: v :: rest =>
      match v.toInt? with
      | some n => parse_render_args { a with start_frame := n } rest
      | none => .error (.valueError v)
  | a, "--end_frame" :: v :: rest =>
      match v.toInt? with
      | some n => parse_render_args { a with end_frame := n } rest
      | none => .error (.valueError v)
  | a, "--animation_length" :: v :: rest =>
      match v.toInt? with
      | some n => parse_render_args { a with animation_length := n } rest
      | none => .error (.valueError v)
  | a, "--width" :: v :: rest =>
      match v.toInt? with
      | some n => parse_render_args { a with width := n } rest
      | none => .error (.valueError v)
  | a, "--height" :: v :: rest =>
      match v.toInt? with
      | some n => parse_render_args { a with height := n } rest
      | none => .error (.valueError v)
  | a, "--combination" :: v :: rest =>
      parse_render_args { a with combination := some v } rest
  | a, "--images" :: rest =>
      parse_render_args { a with images := true } rest
  | a, ["--scene"] =>
      .ok { a with scene := some "infinigen" }
  | a, "--scene" :: v :: rest =>
      if v.startsWith "--" then
        parse_render_args { a with scene := some "infinigen" } (v :: rest)
      else
        parse_render_args { a with scene := some v } rest
  | _, _ => .error (.valueError "unrecognized arguments")

/-! ## Helper lemmas -/

/-- The operation `makedirs` never changes file contents. -/
theorem FS.files_makedirs (fs : FS) (d : String) :
    (fs.makedirs d).files = fs.files := by
  unfold FS.makedirs; split <;> rfl

/-- The operation `makedirs` does not change which files exist. -/
theorem FS.existsFile_makedirs (fs : FS) (d p : String) :
    (fs.makedirs d).existsFile p = fs.existsFile p := by
  unfold FS.existsFile
  rw [FS.files_makedirs]

/-- The operation `makedirs` is idempotent. -/
theorem FS.makedirs_makedirs (fs : FS) (d : String) :
    (fs.makedirs d).makedirs d = fs.makedirs d := by
  unfold FS.makedirs
  split
  · simp_all
  · simp

/-- A freshly written file exists. -/
theorem FS.existsFile_write_self (fs : FS) (p c : String) :
    (fs.write p c).existsFile p = true := by
  simp [FS.write, FS.existsFile, List.lookup]

/-- Writing a file does not change the directory set. -/
theorem FS.dirs_write (fs : FS) (p c : String) :
    (fs.write p c).dirs = fs.dirs := rfl

/-- The operation `makedirs` on a directory already present is the identity. -/
theorem FS.makedirs_of_contains (fs : FS) (d : String)
    (h : fs.dirs.contains d = true) : fs.makedirs d = fs := by
  unfold FS.makedirs
  exact if_pos h

/-- Reduction of `get_background_path` under a well-formed background descriptor. -/
theorem get_background_path_eq (background_path : String) (combination bg : Json)
    (idv fromv : String)
    (hbg : combination.getKey "background" = .ok bg)
    (hid : bg.getKey "id" = .ok (.str idv))
    (hfrom : bg.getKey "from" = .ok (.str fromv)) :
    get_background_path background_path combination =
      .ok (background_path ++ "/" ++ fromv ++ "/" ++ idv ++ ".hdr") := by
  simp [get_background_path, hbg, hid, hfrom, Json.fstr]

/-- The directory just created by `makedirs` is present afterwards. -/
theorem FS.contains_dirs_makedirs (fs : FS) (d : String) :
    (fs.makedirs d).dirs.contains d = true := by
  unfold FS.makedirs
  split
  · assumption
  · simp

/-- Reduction of `get_background` under a well-formed background descriptor reduces to the
makedirs-then-download-or-skip expression. -/
theorem get_background_eq (download : String → String) (fs : FS)
    (background_path : String) (combination bg : Json)
    (idv fromv urlv : String)
    (hbg : combination.getKey "background" = .ok bg)
    (hid : bg.getKey "id" = .ok (.str idv))
    (hfrom : bg.getKey "from" = .ok (.str fromv))
    (hurl : bg.getKey "url" = .ok (.str urlv)) :
    get_background download fs background_path combination =
      (if (fs.makedirs (dirname (background_path ++ "/" ++ fromv ++ "/" ++ idv ++
            ".hdr"))).existsFile
          (background_path ++ "/" ++ fromv ++ "/" ++ idv ++ ".hdr") then
         .ok (fs.makedirs (dirname (background_path ++ "/" ++ fromv ++ "/" ++
                idv ++ ".hdr")),
              [Action.print ("Background " ++
                (background_path ++ "/" ++ fromv ++ "/" ++ idv ++ ".hdr") ++
                " already exists")])
       else
         .ok ((fs.makedirs (dirname (background_path ++ "/" ++ fromv ++ "/" ++
                 idv ++ ".hdr"))).write
                (background_path ++ "/" ++ fromv ++ "/" ++ idv ++ ".hdr")
                (download urlv),
              [Action.download urlv,
               Action.writeFile (background_path ++ "/" ++ fromv ++ "/" ++
                 idv ++ ".hdr")])) := by
  simp [get_background,
    get_background_path_eq background_path combination bg idv fromv hbg hid hfrom,
    hbg, hurl, Json.fstr]

/-! ## Claim theorems -/

/-- C7: for every base directory `d` and combination whose background
descriptor has source `s` (the `from` key), id `i` and url `u`,
`get_background_path` returns exactly `d ++ "/" ++ s ++ "/" ++ i ++ ".hdr"`,
and `get_background` downloads from `u` and writes to that path exactly when
no file exists there (when one exists it performs no download and no write). -/
theorem C7_background_path_and_conditional_download
    (download : String → String) (fs : FS) (d : String) (combination bg : Json)
    (i s u : String)
    (hbg : combination.getKey "background" = .ok bg)
    (hid : bg.getKey "id" = .ok (.str i))
    (hfrom : bg.getKey "from" = .ok (.str s))
    (hurl : bg.getKey "url" = .ok (.str u)) :
    get_background_path d combination =
      .ok (d ++ "/" ++ s ++ "/" ++ i ++ ".hdr") ∧
    (fs.existsFile (d ++ "/" ++ s ++ "/" ++ i ++ ".hdr") = false →
      get_background download fs d combination =
        .ok ((fs.makedirs (dirname (d ++ "/" ++ s ++ "/" ++ i ++ ".hdr"))).write
               (d ++ "/" ++ s ++ "/" ++ i ++ ".hdr") (download u),
             [Action.download u,
              Action.writeFile (d ++ "/" ++ s ++ "/" ++ i ++ ".hdr")])) ∧
    (fs.existsFile (d ++ "/" ++ s ++ "/" ++ i ++ ".hdr") = true →
      get_background download fs d combination =
        .ok (fs.makedirs (dirname (d ++ "/" ++ s ++ "/" ++ i ++ ".hdr")),
             [Action.print ("Background " ++
                (d ++ "/" ++ s ++ "/" ++ i ++ ".hdr") ++ " already exists")])) := by
  refine ⟨get_background_path_eq d combination bg i s hbg hid hfrom, ?_, ?_⟩
  · intro hex
    rw [get_background_eq download fs d combination bg i s u hbg hid hfrom hurl]
    rw [if_neg]
    rw [FS.existsFile_makedirs, hex]
    simp
  · intro hex
    rw [get_background_eq download fs d combination bg i s u hbg hid hfrom hurl]
    rw [if_pos]
    rw [FS.existsFile_makedirs, hex]

/-- C7 witness: a concrete combination with source `hdri_haven`, id `sky1` and
url `http:u`, on an empty file system: the path is `bg/hdri_haven/sky1.hdr`
and the file is downloaded and written there. -/
theorem C7_background_path_witness :
    get_background_path "bg"
        (Json.obj [("background", Json.obj
          [("id", Json.str "sky1"), ("from", Json.str "hdri_haven"),
           ("url", Json.str "http:u")])]) =
      .ok "bg/hdri_haven/sky1.hdr" ∧
    get_background (fun _ => "DATA") (FS.mk [] []) "bg"
        (Json.obj [("background", Json.obj
          [("id", Json.str "sky1"), ("from", Json.str "hdri_haven"),
           ("url", Json.str "http:u")])]) =
      .ok (FS.mk [("bg/hdri_haven/sky1.hdr", "DATA")] ["bg/hdri_haven"],
           [Action.download "http:u",
            Action.writeFile "bg/hdri_haven/sky1.hdr"]) := by
  have h := C7_background_path_and_conditional_download (fun _ => "DATA")
    (FS.mk [] []) "bg"
    (Json.obj [("background", Json.obj
      [("id", Json.str "sky1"), ("from", Json.str "hdri_haven"),
       ("url", Json.str "http:u")])])
    (Json.obj [("id", Json.str "sky1"), ("from", Json.str "hdri_haven"),
       ("url", Json.str "http:u")])
    "sky1" "hdri_haven" "http:u" rfl rfl rfl rfl
  exact ⟨h.1, h.2.1 rfl⟩

/-- C8: `get_background` is idempotent: when the target file already exists the
call performs no file write (the file map is untouched), and whatever a first
call produced, a second call on the resulting file system leaves it unchanged,
merely reporting that the background already exists. -/
theorem C8_get_background_idempotent
    (download : String → String) (fs : FS) (d : String) (combination bg : Json)
    (i s u : String)
    (hbg : combination.getKey "background" = .ok bg)
    (hid : bg.getKey "id" = .ok (.str i))
    (hfrom : bg.getKey "from" = .ok (.str s))
    (hurl : bg.getKey "url" = .ok (.str u)) :
    (fs.existsFile (d ++ "/" ++ s ++ "/" ++ i ++ ".hdr") = true →
      get_background download fs d combination =
        .ok (fs.makedirs (dirname (d ++ "/" ++ s ++ "/" ++ i ++ ".hdr")),
             [Action.print ("Background " ++
                (d ++ "/" ++ s ++ "/" ++ i ++ ".hdr") ++ " already exists")]) ∧
      (fs.makedirs (dirname (d ++ "/" ++ s ++ "/" ++ i ++ ".hdr"))).files =
        fs.files) ∧
    (∀ fs1 acts, get_background download fs d combination = .ok (fs1, acts) →
      get_background download fs1 d combination =
        .ok (fs1, [Action.print ("Background " ++
               (d ++ "/" ++ s ++ "/" ++ i ++ ".hdr") ++ " already exists")])) := by
  constructor
  · intro hex
    constructor
    · rw [get_background_eq download fs d combination bg i s u hbg hid hfrom
        hurl]
      rw [if_pos]
      rw [FS.existsFile_makedirs, hex]
    · exact FS.files_makedirs fs _
  · intro fs1 acts h
    rw [get_background_eq download fs d combination bg i s u hbg hid hfrom hurl]
      at h
    rw [get_background_eq download fs1 d combination bg i s u hbg hid hfrom hurl]
    by_cases hex : (fs.makedirs (dirname (d ++ "/" ++ s ++ "/" ++ i ++
        ".hdr"))).existsFile (d ++ "/" ++ s ++ "/" ++ i ++ ".hdr") = true
    · rw [if_pos hex] at h
      have h2 : fs.makedirs (dirname (d ++ "/" ++ s ++ "/" ++ i ++ ".hdr")) =
          fs1 := by
        cases h; rfl
      subst h2
      rw [FS.makedirs_makedirs]
      rw [if_pos hex]
    · rw [if_neg hex] at h
      have h2 : (fs.makedirs (dirname (d ++ "/" ++ s ++ "/" ++ i ++
          ".hdr"))).write (d ++ "/" ++ s ++ "/" ++ i ++ ".hdr") (download u) =
          fs1 := by
        cases h; rfl
      subst h2
      have hm : ((fs.makedirs (dirname (d ++ "/" ++ s ++ "/" ++ i ++
          ".hdr"))).write (d ++ "/" ++ s ++ "/" ++ i ++ ".hdr")
          (download u)).makedirs (dirname (d ++ "/" ++ s ++ "/" ++ i ++
          ".hdr")) = (fs.makedirs (dirname (d ++ "/" ++ s ++ "/" ++ i ++
          ".hdr"))).write (d ++ "/" ++ s ++ "/" ++ i ++ ".hdr") (download u) := by
        apply FS.makedirs_of_contains
        rw [FS.dirs_write]
        exact FS.contains_dirs_makedirs fs _
      rw [hm]
      rw [if_pos (FS.existsFile_write_self _ _ _)]

/-- C8 witness: with the file already on disk, the call only records the
parent directory, leaves the file map unchanged, and a repeated call is a
no-op on the file system. -/
theorem C8_get_background_idempotent_witness :
    get_background (fun _ => "NEW")
        (FS.mk [("bg/hdri_haven/sky1.hdr", "OLD")] []) "bg"
        (Json.obj [("background", Json.obj
          [("id", Json.str "sky1"), ("from", Json.str "hdri_haven"),
           ("url", Json.str "http:u")])]) =
      .ok (FS.mk [("bg/hdri_haven/sky1.hdr", "OLD")] ["bg/hdri_haven"],
           [Action.print "Background bg/hdri_haven/sky1.hdr already exists"]) ∧
    get_background (fun _ => "NEW")
        (FS.mk [("bg/hdri_haven/sky1.hdr", "OLD")] ["bg/hdri_haven"]) "bg"
        (Json.obj [("background", Json.obj
          [("id", Json.str "sky1"), ("from", Json.str "hdri_haven"),
           ("url", Json.str "http:u")])]) =
      .ok (FS.mk [("bg/hdri_haven/sky1.hdr", "OLD")] ["bg/hdri_haven"],
           [Action.print "Background bg/hdri_haven/sky1.hdr already exists"]) := by
  have h := C8_get_background_idempotent (fun _ => "NEW")
    (FS.mk [("bg/hdri_haven/sky1.hdr", "OLD")] []) "bg"
    (Json.obj [("background", Json.obj
      [("id", Json.str "sky1"), ("from", Json.str "hdri_haven"),
       ("url", Json.str "http:u")])])
    (Json.obj [("id", Json.str "sky1"), ("from", Json.str "hdri_haven"),
       ("url", Json.str "http:u")])
    "sky1" "hdri_haven" "http:u" rfl rfl rfl rfl
  exact ⟨(h.1 rfl).1, h.2 _ _ (h.1 rfl).1⟩

/-- C4: under a well-formed background descriptor, `set_background` raises a
`ValueError` if and only if the world node tree has no node of type
`TEX_ENVIRONMENT`; when such a node exists the call returns normally — the
lookups for the `Background` and `World Output` nodes cannot raise, since a
missing node is created instead. -/
theorem C4_set_background_value_error_iff
    (download : String → String) (fs : FS) (d : String) (combination bg : Json)
    (i s u : String) (tree : List SBNode)
    (hbg : combination.getKey "background" = .ok bg)
    (hid : bg.getKey "id" = .ok (.str i))
    (hfrom : bg.getKey "from" = .ok (.str s))
    (hurl : bg.getKey "url" = .ok (.str u)) :
    ((∃ m, set_background download fs d combination tree =
        .error (.valueError m)) ↔
      ∀ n ∈ tree, n.type ≠ "TEX_ENVIRONMENT") ∧
    ((∃ n ∈ tree, n.type = "TEX_ENVIRONMENT") →
      ∃ r, set_background download fs d combination tree = .ok r) := by
  have hpath := get_background_path_eq d combination bg i s hbg hid hfrom
  have hgb : ∃ p, get_background download fs d combination = .ok p := by
    rw [get_background_eq download fs d combination bg i s u hbg hid hfrom hurl]
    split <;> exact ⟨_, rfl⟩
  obtain ⟨⟨fs1, acts⟩, hp⟩ := hgb
  cases hfind : tree.find? (fun n => n.type == "TEX_ENVIRONMENT") with
  | none =>
      have hsb : set_background download fs d combination tree =
          .error (.valueError
            "Environment Texture node not found in the world node graph") := by
        simp [set_background, hp, hpath, hfind]
      constructor
      · constructor
        · intro _ n hn
          have h2 := List.find?_eq_none.mp hfind n hn
          simpa using h2
        · intro _
          exact ⟨_, hsb⟩
      · rintro ⟨n, hn, ht⟩
        exfalso
        have h2 := List.find?_eq_none.mp hfind n hn
        simp [ht] at h2
  | some env =>
      have hsb : ∃ r, set_background download fs d combination tree = .ok r := by
        simp only [set_background, hp, hpath, hfind]
        exact ⟨_, rfl⟩
      have henv : env ∈ tree ∧ env.type = "TEX_ENVIRONMENT" := by
        refine ⟨List.mem_of_find?_eq_some hfind, ?_⟩
        have h2 := List.find?_some hfind
        simpa using h2
      constructor
      · constructor
        · rintro ⟨m, hm⟩
          obtain ⟨r, hr⟩ := hsb
          rw [hr] at hm
          cases hm
        · intro hall
          exact absurd henv.2 (hall env henv.1)
      · intro _
        exact hsb

/-- C4 witness: a tree holding one Environment Texture node makes
`set_background` succeed, and the iff instance holds there. -/
theorem C4_set_background_witness :
    (∃ n ∈ [SBNode.mk "TEX_ENVIRONMENT" "Environment Texture"],
       n.type = "TEX_ENVIRONMENT") ∧
    ∃ r, set_background (fun _ => "DATA") (FS.mk [] []) "bg"
        (Json.obj [("background", Json.obj
          [("id", Json.str "sky1"), ("from", Json.str "hdri_haven"),
           ("url", Json.str "http:u")])])
        [SBNode.mk "TEX_ENVIRONMENT" "Environment Texture"] = .ok r := by
  have h := C4_set_background_value_error_iff (fun _ => "DATA") (FS.mk [] [])
    "bg"
    (Json.obj [("background", Json.obj
      [("id", Json.str "sky1"), ("from", Json.str "hdri_haven"),
       ("url", Json.str "http:u")])])
    (Json.obj [("id", Json.str "sky1"), ("from", Json.str "hdri_haven"),
       ("url", Json.str "http:u")])
    "sky1" "hdri_haven" "http:u"
    [SBNode.mk "TEX_ENVIRONMENT" "Environment Texture"] rfl rfl rfl rfl
  have hmem : ∃ n ∈ [SBNode.mk "TEX_ENVIRONMENT" "Environment Texture"],
      n.type = "TEX_ENVIRONMENT" :=
    ⟨SBNode.mk "TEX_ENVIRONMENT" "Environment Texture", by simp, rfl⟩
  exact ⟨hmem, h.2 hmem⟩

/-- C6: for every JSON combination file whose top-level value has a
`combinations` list and every index within bounds, `read_combination` returns
the indexed entry of that list, unchanged. -/
theorem C6_read_combination_returns_entry (fsJson : String → Option Json)
    (combination_file : String) (index : Nat) (data : Json) (l : List Json)
    (v : Json)
    (hfile : fsJson combination_file = some data)
    (hcomb : data.getKey "combinations" = .ok (.arr l))
    (hidx : l.get? index = some v) :
    read_combination fsJson combination_file index = .ok v := by
  rw [List.get?_eq_getElem?] at hidx
  simp [read_combination, hfile, hcomb, hidx]

/-- C6 witness: a two-entry `combinations` list; index 1 yields the second
entry unchanged. -/
theorem C6_read_combination_witness :
    read_combination
      (fun f => if f = "combinations.json" then
        some (Json.obj [("combinations",
          Json.arr [Json.num 7, Json.str "x"])]) else none)
      "combinations.json" 1 = .ok (Json.str "x") :=
  C6_read_combination_returns_entry _ "combinations.json" 1
    (Json.obj [("combinations", Json.arr [Json.num 7, Json.str "x"])])
    [Json.num 7, Json.str "x"] (Json.str "x") rfl rfl rfl

/-- When every subprocess exits 0, the render loop runs exactly one subprocess
per index/combination pair, in list order, and reports no error. -/
theorem run_job_loop_all_zero (exit : Nat → Nat) (w h : Int)
    (d hdri : String) (sf ef : Int) (hz : ∀ k, exit k = 0) :
    ∀ (is : List Nat) (cs : List String) (j : Nat),
      run_job_loop exit w h d hdri sf ef j is cs =
        (List.zipWith (fun i c => Action.runSubprocess
          (render_command w h i d hdri sf ef c)) is cs, none) ∨
      cs.length < is.length := by
  intro is
  induction is with
  | nil => intro cs j; left; simp [run_job_loop]
  | cons i is ih =>
      intro cs j
      cases cs with
      | nil => right; simp
      | cons c cs =>
          rcases ih cs (j + 1) with hrec | hlt
          · left
            simp [run_job_loop, hz j, hrec]
          · right
            simpa using hlt

/-- The function `run_job` never performs a file deletion, whatever the exit codes. -/
theorem run_job_no_delete (exit : Nat → Nat) (indices : List Nat)
    (combos : List String) (w h : Int) (output_dir hdri : String)
    (sf ef : Int) (t : String) :
    ∀ a ∈ (run_job exit indices combos w h output_dir hdri sf ef t).1,
      a.isDelete = false := by
  have hloop : ∀ (is : List Nat) (cs : List String) (j : Nat),
      ∀ a ∈ (run_job_loop exit w h (output_dir ++ t) hdri sf ef j is cs).1,
        a.isDelete = false := by
    intro is
    induction is with
    | nil => intro cs j a ha; simp [run_job_loop] at ha
    | cons i is ih =>
        intro cs j a ha
        cases cs with
        | nil => simp [run_job_loop] at ha
        | cons c cs =>
            simp only [run_job_loop] at ha
            by_cases hz : exit j = 0
            · rw [if_pos hz] at ha
              simp only [List.mem_cons] at ha
              rcases ha with rfl | ha
              · rfl
              · exact ih cs (j + 1) a ha
            · rw [if_neg hz] at ha
              simp only [List.mem_singleton] at ha
              subst ha
              rfl
  intro a ha
  unfold run_job at ha
  simp only at ha
  rcases hb : (run_job_loop exit w h (output_dir ++ t) hdri sf ef 0 indices
      (combos.map escape_combo)).2 with _ | e
  all_goals rw [hb] at ha
  · simp only [List.mem_cons, List.mem_append, List.mem_singleton,
      List.cons_append] at ha
    rcases ha with rfl | ha | rfl | h0
    · rfl
    · exact hloop indices (combos.map escape_combo) 0 a ha
    · rfl
    · simp at h0
  · simp only [List.mem_cons] at ha
    rcases ha with rfl | ha
    · rfl
    · exact hloop indices (combos.map escape_combo) 0 a ha

/-- C1 (amended): with matching index and combination lists and all subprocess
exits 0, `run_job` creates the timestamped output directory, launches exactly
one render subprocess per combination, serially in list order, and only then
uploads the output directory — which is its final action; `run_job` itself
deletes no local files. -/
theorem C1_run_job_serial_then_upload (exit : Nat → Nat)
    (indices : List Nat) (combos : List String) (w h : Int)
    (output_dir hdri : String) (sf ef : Int) (t : String)
    (hlen : indices.length = combos.length) (hz : ∀ k, exit k = 0) :
    run_job exit indices combos w h output_dir hdri sf ef t =
      (Action.makeDirs (output_dir ++ t) ::
        List.zipWith (fun i c => Action.runSubprocess
          (render_command w h i (output_dir ++ t) hdri sf ef
            (escape_combo c))) indices combos
        ++ [Action.upload (output_dir ++ t)], none) ∧
    ∀ a ∈ (run_job exit indices combos w h output_dir hdri sf ef t).1,
      a.isDelete = false := by
  constructor
  · rcases run_job_loop_all_zero exit w h (output_dir ++ t) hdri sf ef hz
        indices (combos.map escape_combo) 0 with hloop | hlt
    · simp only [run_job, hloop]
      simp [List.zipWith_map_right]
    · exfalso
      rw [List.length_map, ← hlen] at hlt
      exact lt_irrefl _ hlt
  · exact run_job_no_delete exit indices combos w h output_dir hdri sf ef t

/-- C1 witness: two combinations render in order, then the upload, with no
deletion. -/
theorem C1_run_job_witness :
    run_job (fun _ => 0) [0, 1] ["a", "b"] 1920 1080 "out" "bg" 0 65 "T" =
      (Action.makeDirs "outT" ::
        List.zipWith (fun i c => Action.runSubprocess
          (render_command 1920 1080 i "outT" "bg" 0 65 (escape_combo c)))
          [0, 1] ["a", "b"]
        ++ [Action.upload "outT"], none) ∧
    ∀ a ∈ (run_job (fun _ => 0) [0, 1] ["a", "b"] 1920 1080 "out" "bg" 0 65
        "T").1, a.isDelete = false :=
  C1_run_job_serial_then_upload (fun _ => 0) [0, 1] ["a", "b"] 1920 1080
    "out" "bg" 0 65 "T" rfl (fun _ => rfl)

/-- C1 counterexample to the deletion part of the claim: a concrete `run_job`
call whose action trace contains no deletion at all, so no local copies are
deleted after the upload. -/
theorem C1_run_job_counterexample_no_deletion :
    ¬ ∃ a ∈ (run_job (fun _ => 0) [0] ["combo"] 1920 1080 "out" "bg"
        0 65 "171717.17").1, a.isDelete = true := by
  decide

/-- C3 (amended): for every nonempty path other than the special value
`"infinigen"` that names no existing file, `load_user_blend_file` returns
`False` having only logged an error (it never attempts to open the file), and
`render_scene` given that path logs the errors and returns early, rendering
nothing. -/
theorem C3_missing_blend_file_early_return (fs : List String)
    (cwd output_dir : String) (idx : Nat) (p : String)
    (hne : p ≠ "infinigen") (hnn : p ≠ "") (hmiss : fs.contains p = false) :
    load_user_blend_file fs p =
      (false, [Action.logError ("Blender file " ++ p ++ " does not exist.")]) ∧
    render_scene fs cwd output_dir idx (some p) =
      ([Action.logInfo ("Rendering scene with combination " ++ toString idx),
        Action.makeDirs output_dir, Action.initializeScene,
        Action.logError ("Blender file " ++ p ++ " does not exist."),
        Action.logError ("Unable to load user-specified Blender file: " ++ p)],
       none) ∧
    ∀ a ∈ (render_scene fs cwd output_dir idx (some p)).1,
      ∀ q, a ≠ Action.render q := by
  have hl : load_user_blend_file fs p =
      (false, [Action.logError ("Blender file " ++ p ++
        " does not exist.")]) := by
    unfold load_user_blend_file
    rw [hmiss]
    simp
  have hr : render_scene fs cwd output_dir idx (some p) =
      ([Action.logInfo ("Rendering scene with combination " ++ toString idx),
        Action.makeDirs output_dir, Action.initializeScene,
        Action.logError ("Blender file " ++ p ++ " does not exist."),
        Action.logError ("Unable to load user-specified Blender file: " ++ p)],
       none) := by
    simp [render_scene, hne, hnn, hl]
  refine ⟨hl, hr, ?_⟩
  intro a ha q
  rw [hr] at ha
  simp only [List.mem_cons, List.not_mem_nil, or_false] at ha
  rcases ha with rfl | rfl | rfl | rfl | rfl <;> simp

/-- C3 witness: the path `missing.blend` on an empty file system. -/
theorem C3_missing_blend_file_witness :
    load_user_blend_file [] "missing.blend" =
      (false,
       [Action.logError "Blender file missing.blend does not exist."]) ∧
    render_scene [] "/w" "out" 0 (some "missing.blend") =
      ([Action.logInfo "Rendering scene with combination 0",
        Action.makeDirs "out", Action.initializeScene,
        Action.logError "Blender file missing.blend does not exist.",
        Action.logError
          "Unable to load user-specified Blender file: missing.blend"],
       none) ∧
    ∀ a ∈ (render_scene [] "/w" "out" 0 (some "missing.blend")).1,
      ∀ q, a ≠ Action.render q := by
  have h := C3_missing_blend_file_early_return [] "/w" "out" 0 "missing.blend"
    (by decide) (by decide) rfl
  exact h

/-- C3 counterexample: the path `"infinigen"` names no existing file, yet
`render_scene` given it does not return early — it raises `NameError`
(`generate_random_scene` uses the never-imported `subprocess` module). -/
theorem C3_counterexample_infinigen_path :
    ([] : List String).contains "infinigen" = false ∧
    (render_scene [] "/w" "out" 0 (some "infinigen")).2 =
      some (.nameError "subprocess") ∧
    (render_scene [] "/w" "out" 0 (some "infinigen")).2 ≠ none := by
  have h : (render_scene [] "/w" "out" 0 (some "infinigen")).2 =
      some (.nameError "subprocess") := rfl
  exact ⟨rfl, h, by rw [h]; simp⟩

/-- With no `"--"` token in the list, the scan keeps nothing. -/
theorem render_cli_argv_of_no_sep (argv : List String)
    (h : argv.contains "--" = false) : render_cli_argv argv = [] := by
  induction argv with
  | nil => rfl
  | cons a argv ih =>
      simp only [List.contains_cons, Bool.or_eq_false_iff,
        beq_eq_false_iff_ne, ne_eq] at h
      simp [render_cli_argv, Ne.symm h.1, ih h.2]

/-- Everything after the first `"--"` token is kept, and nothing before. -/
theorem render_cli_argv_after_first_sep (pre post : List String)
    (h : pre.contains "--" = false) :
    render_cli_argv (pre ++ "--" :: post) = post := by
  induction pre with
  | nil => simp [render_cli_argv]
  | cons a pre ih =>
      simp only [List.contains_cons, Bool.or_eq_false_iff,
        beq_eq_false_iff_ne, ne_eq] at h
      simp [render_cli_argv, Ne.symm h.1, ih h.2]

/-- C10: the render CLI parses only the arguments after the first `"--"` token
of `sys.argv`; when no `"--"` token is present the parsed list is empty and
every flag keeps its declared default, whatever else is on the command line. -/
theorem C10_cli_parses_after_first_sep (pre post argv : List String)
    (hpre : pre.contains "--" = false)
    (hargv : argv.contains "--" = false) :
    render_cli_argv (pre ++ "--" :: post) = post ∧
    render_cli_argv argv = [] ∧
    parse_render_args {} (render_cli_argv argv) =
      .ok { output_dir := "renders",
            combination_file := "combinations.json",
            hdri_path := "backgrounds",
            combination_index := 0,
            start_frame := 1,
            end_frame := 65,
            animation_length := 120,
            width := 1920,
            height := 1080,
            combination := none,
            images := false,
            scene := none } := by
  refine ⟨render_cli_argv_after_first_sep pre post hpre,
    render_cli_argv_of_no_sep argv hargv, ?_⟩
  rw [render_cli_argv_of_no_sep argv hargv]
  rfl

/-- C10 witness: with no `"--"`, a supplied `--width 500` is ignored and the
defaults survive; with a `"--"`, only the tokens after it are kept. -/
theorem C10_cli_witness :
    render_cli_argv (["--width", "500"] ++ "--" :: ["--width", "640"]) =
      ["--width", "640"] ∧
    render_cli_argv ["--width", "500"] = [] ∧
    parse_render_args {} (render_cli_argv ["--width", "500"]) =
      .ok { output_dir := "renders",
            combination_file := "combinations.json",
            hdri_path := "backgrounds",
            combination_index := 0,
            start_frame := 1,
            end_frame := 65,
            animation_length := 120,
            width := 1920,
            height := 1080,
            combination := none,
            images := false,
            scene := none } :=
  C10_cli_parses_after_first_sep ["--width", "500"] ["--width", "640"]
    ["--width", "500"] rfl rfl

/-- C2 (code bug): no invocation of `render_scene` completes — the call to the
undefined name `delete__folder` (a typo for `delete_folder`) raises
`NameError` before anything is rendered (first conjunct, at the CLI's default
arguments).  In the continuation that the source intends (the code after line
178), video mode renders to `{i}.mp4` and saves the scene to `{i}.blend` in
the output directory (second conjunct), while image mode writes a `.png`
whose name is built from the combination index together with the middle frame
and the randomly chosen resolution — not from the index alone (third
conjunct). -/
theorem C2_render_artifact_names_code_bug :
    (render_scene [] "/w" "renders" 0 none).2 =
      some (.nameError "delete__folder") ∧
    (∀ (i : Nat) (d : String) (sf ef al : Int)
       (fsJson : String → Option Json) (file : String) (size : Int × Int)
       (download : String → String) (fsr : FS) (hdri : String)
       (tree : List SBNode),
       render_scene_continuation fsJson file
           (some (Json.obj [("objects", Json.arr [])])) i sf ef al false
           (some "base.blend") d size download fsr hdri tree =
         ([Action.createCameraRig, Action.setFrameRange (al - (ef - sf)) al,
           Action.lockAllObjects, Action.unlockObjects,
           Action.setCameraSettings, Action.setCameraAnimation al,
           Action.positionCamera,
           Action.render (d ++ "/" ++ toString i ++ ".mp4"),
           Action.saveMainfile (d ++ "/" ++ toString i ++ ".blend")],
          none)) ∧
    (∀ (i : Nat) (d : String) (sf ef al : Int)
       (fsJson : String → Option Json) (file : String) (size : Int × Int)
       (download : String → String) (fsr : FS) (hdri : String)
       (tree : List SBNode),
       render_scene_continuation fsJson file
           (some (Json.obj [("objects", Json.arr [])])) i sf ef al true
           (some "base.blend") d size download fsr hdri tree =
         ([Action.createCameraRig, Action.setFrameRange (al - (ef - sf)) al,
           Action.lockAllObjects, Action.unlockObjects,
           Action.setCameraSettings, Action.setCameraAnimation al,
           Action.frameSet ((al - (ef - sf) + al).fdiv 2),
           Action.positionCamera,
           Action.render (d ++ "/" ++ toString i ++ "_frame_" ++
             toString ((al - (ef - sf) + al).fdiv 2) ++ "_" ++
             toString size.1 ++ "x" ++ toString size.2 ++ ".png")],
          none)) :=
  ⟨rfl, by intros; rfl, by intros; rfl⟩

/-- C9 (code bug): the frame-range assignment of lines 184-185 is dead code —
`render_scene` raises `NameError` at the `delete__folder()` call on line 178
before reaching it (first conjunct, with a loadable user scene).  In the
continuation the source intends, the frame range is set to exactly
`animation_length - (end_frame - start_frame) .. animation_length`, for all
parameter values (second conjunct). -/
theorem C9_frame_range_code_bug :
    (render_scene ["base.blend"] "/w" "out" 5 (some "base.blend")).2 =
      some (.nameError "delete__folder") ∧
    (∀ (sf ef al : Int) (fsJson : String → Option Json) (file : String)
       (carg : Option Json) (i : Nat) (ri : Bool) (ub : Option String)
       (d : String) (size : Int × Int) (download : String → String)
       (fsr : FS) (hdri : String) (tree : List SBNode),
       (render_scene_continuation fsJson file carg i sf ef al ri ub d size
           download fsr hdri tree).1.get? 1 =
         some (Action.setFrameRange (al - (ef - sf)) al)) :=
  ⟨rfl, by intros; rfl⟩

/-- C5 (code bug): `run_job` checks its render subprocess — a non-zero exit
status raises `CalledProcessError` and the upload never happens (third and
fourth conjuncts).  But `generate_random_scene` never reaches its
return-code branch: `render.py` does not import `subprocess`, so the call
raises `NameError` whatever the would-be exit status (first conjunct); the
`if result.returncode != 0: return ""` branch of its `try` body is dead code
(second conjunct). -/
theorem C5_subprocess_exit_handling_code_bug :
    (generate_random_scene 1 "/w").2 = .error (.nameError "subprocess") ∧
    generate_random_scene_try_body 1 "/w" ["folder0"] = "" ∧
    (run_job (fun _ => 1) [0] ["c"] 1920 1080 "out" "bg" 0 65 "t").2 =
      some (.calledProcessError 1) ∧
    (∀ a ∈ (run_job (fun _ => 1) [0] ["c"] 1920 1080 "out" "bg" 0 65 "t").1,
      a ≠ Action.upload "outt") := by
  refine ⟨rfl, rfl, rfl, ?_⟩
  decide

end Blendgen
